import Mathlib

/-!
Verification of the AMN LDA backend core (catalog query service, posts
service, rule-based chat intent matcher) against its specification.

The Python source (`main.py`) is shallowly embedded: endpoint handlers
become total Lean functions, the external document store becomes an
explicit function parameter returning `Except Unit`, Python floats used
as prices become rationals, and Python dictionaries become structures.
-/

namespace AMN

/-- A product document as stored or returned. `price` is optional to model
`d.get("price", 0)` on dictionaries that may lack the field. -/
structure ProductDoc where
  idStr : String
  title : String
  description : String
  price : Option ℚ
  category : String
  in_stock : Bool
deriving DecidableEq, Repr

/-- A blog-post document (`/api/posts` records). -/
structure PostDoc where
  idStr : String
  title : String
  excerpt : String
  category : String
  date : String
deriving DecidableEq, Repr

/-- Lowercasing of a single character, as Python `str.lower()` acts on the
character repertoire used by this program: ASCII `A`–`Z` and the Latin-1
accented uppercase letters `À` (0xC0) – `Þ` (0xDE) except `×` (0xD7) map 32
code points up; everything else is unchanged. -/
def charLower (c : Char) : Char :=
  let n := c.toNat
  if 65 ≤ n ∧ n ≤ 90 then Char.ofNat (n + 32)
  else if 192 ≤ n ∧ n ≤ 222 ∧ n ≠ 215 then Char.ofNat (n + 32)
  else c

/-- Python whitespace characters stripped by `str.strip()` (ASCII range). -/
def pyIsSpace (c : Char) : Bool :=
  c = ' ' || c = '\t' || c = '\n' || c = '\r' || c = Char.ofNat 11 || c = Char.ofNat 12

/-- Python `str.strip()`: drop whitespace from both ends. -/
def pyStrip (s : String) : String :=
  ⟨((s.data.dropWhile pyIsSpace).reverse.dropWhile pyIsSpace).reverse⟩

/-- Python `str.lower()` on a whole string. -/
def pyLower (s : String) : String :=
  ⟨s.data.map charLower⟩

/-- Does `need` match `hay` position by position at the start (plain
character equality)? Helper for substring search. -/
def hereEq : List Char → List Char → Bool
  | [], _ => true
  | _ :: _, [] => false
  | p :: ps, c :: cs => (p = c) && hereEq ps cs

/-- Does `need` occur contiguously anywhere in `hay`? This is Python's
`need in hay` substring test. -/
def subSearch (need : List Char) : List Char → Bool
  | [] => hereEq need []
  | c :: cs => hereEq need (c :: cs) || subSearch need cs

/-- Python `need in hay` on strings. -/
def strIn (need hay : String) : Bool :=
  subSearch need.data hay.data

/-- Case-insensitive substring containment, the relation the specification
uses to describe the text filter: `need` occurs in `hay` after lowercasing
both. -/
def containsCI (hay need : String) : Bool :=
  subSearch (pyLower need).data (pyLower hay).data

/-- One token of a regular-expression pattern in the fragment this model
interprets: `.` is a single-character wildcard, every other character is a
literal (case-insensitively when `ci` is set, as MongoDB `$options: "i"`). -/
def tokMatch (ci : Bool) (p c : Char) : Bool :=
  if p = '.' then true
  else if ci then charLower p = charLower c
  else p = c

/-- Does the pattern match `hay` token by token at the start? -/
def rxHere (ci : Bool) : List Char → List Char → Bool
  | [], _ => true
  | _ :: _, [] => false
  | p :: ps, c :: cs => tokMatch ci p c && rxHere ci ps cs

/-- Unanchored regex search, MongoDB `$regex` style: does the pattern match
some contiguous window of `hay`? Modelled for the pattern fragment of
literal characters plus the `.` wildcard; patterns using other regex
metacharacters are outside the fragment this model interprets. -/
def rxSearch (ci : Bool) (pat : List Char) : List Char → Bool
  | [] => rxHere ci pat []
  | c :: cs => rxHere ci pat (c :: cs) || rxSearch ci pat cs

/-- Regex metacharacters of the PCRE dialect MongoDB uses. A pattern
avoiding all of these reads as a literal string. -/
def rxMeta : List Char :=
  ['.', '*', '+', '?', '^', '$', '|', '\\', '(', ')', '[', ']',
   Char.ofNat 123, Char.ofNat 125]

/-- The structured MongoDB filter built by `list_products`: optional exact
category match, optional exact in-stock match, optional three-field
case-insensitive `$regex` `$or` group with pattern `qPattern`, optional
inclusive price bounds. -/
structure MongoFilter where
  category : Option String
  in_stock : Option Bool
  qPattern : Option String
  priceGte : Option ℚ
  priceLte : Option ℚ
deriving DecidableEq, Repr

/-- Python truthiness of an optional string (`if category:`): `None` and
the empty string are falsy. -/
def strTruthy : Option String → Bool
  | none => false
  | some s => !s.data.isEmpty

/-- Filter construction of `list_products` (main.py lines 102–120):
clauses are added only for truthy / non-`None` parameters. -/
def buildFilter (q category : Option String) (min_price max_price : Option ℚ)
    (in_stock : Option Bool) : MongoFilter where
  category := if strTruthy category then category else none
  in_stock := in_stock
  qPattern := if strTruthy q then q else none
  priceGte := min_price
  priceLte := max_price

/-- Modelled from the spec: the external DocumentStore's per-document
reading of the filter `list_products` builds (exact matches, inclusive
price bounds, and the `$or` group of case-insensitive `$regex` clauses
over title, description and category, per MongoDB's documented `$regex`
semantics on the pattern fragment `rxSearch` interprets). The store
itself (`database.get_documents` / MongoDB) is not part of the source. -/
def evalFilter (f : MongoFilter) (d : ProductDoc) : Bool :=
  (match f.category with
   | none => true
   | some c => d.category = c) &&
  (match f.in_stock with
   | none => true
   | some b => d.in_stock = b) &&
  (match f.qPattern with
   | none => true
   | some q =>
      rxSearch true q.data d.title.data ||
      rxSearch true q.data d.description.data ||
      rxSearch true q.data d.category.data) &&
  (match f.priceGte with
   | none => true
   | some m => match d.price with
     | none => false
     | some p => m ≤ p) &&
  (match f.priceLte with
   | none => true
   | some m => match d.price with
     | none => false
     | some p => p ≤ m)

/-- Sort key of `list_products`: `float(d.get("price", 0))`. -/
def priceKey (d : ProductDoc) : ℚ :=
  d.price.getD 0

/-- Ascending comparison on the sort key. -/
def ascLe (a b : ProductDoc) : Bool :=
  priceKey a ≤ priceKey b

/-- Descending comparison on the sort key (each comparison reversed, as
Python's `reverse=True`). -/
def descLe (a b : ProductDoc) : Bool :=
  priceKey b ≤ priceKey a

/-- The sorting stage of `list_products` (main.py lines 156–159). Python's
`sorted` is a stable ascending sort by key; `reverse=True` reverses each
comparison while keeping stability, which is a stable merge sort under the
flipped key comparison. -/
def sortDocs (sort : Option String) (docs : List ProductDoc) : List ProductDoc :=
  if sort = some "price_asc" then docs.mergeSort ascLe
  else if sort = some "price_desc" then docs.mergeSort descLe
  else docs

/-- The built-in demo catalog (main.py lines 127–152), in literal order. -/
def demoProducts : List ProductDoc :=
  [⟨"demo-1", "Cartão de Visita Premium",
    "Impressão de alta qualidade com acabamento fosco/UV.",
    some (mkRat 299 10), "Cartões", true⟩,
   ⟨"demo-2", "Flyers Dobráveis",
    "Papel couché 170g, dobra em 3 painéis.",
    some (49 : ℚ), "Flyers", true⟩,
   ⟨"demo-3", "Lonas Publicitárias",
    "Impressão resistente para exterior com ilhoses.",
    some (99 : ℚ), "Grandes Formatos", false⟩]

/-- Result shape of `/api/products`. -/
structure QueryResult where
  items : List ProductDoc
  count : Nat
deriving DecidableEq, Repr

/-- The `/api/products` handler (main.py lines 91–161). The external
document store is passed in as a function from collection name, filter and
limit to either a document list or a failure; the `try/except` around
`get_documents` becomes a `match` on that result, falling back to the demo
catalog truncated to `limit`. -/
def list_products (store : String → MongoFilter → Nat → Except Unit (List ProductDoc))
    (q category : Option String) (min_price max_price : Option ℚ)
    (in_stock : Option Bool) (sort : Option String) (limit : Nat) : QueryResult :=
  let fd := buildFilter q category min_price max_price in_stock
  let docs := match store "product" fd limit with
    | .ok ds => ds
    | .error _ => demoProducts.take limit
  let sorted := sortDocs sort docs
  ⟨sorted, sorted.length⟩

/-- The built-in demo posts (main.py lines 172–194), in literal order. -/
def demoPosts : List PostDoc :=
  [⟨"n1", "Nova linha de impressão sustentável",
    "Apresentamos materiais eco-friendly com a mesma qualidade premium.",
    "Notícias", "2025-01-10"⟩,
   ⟨"n2", "Guia de acabamentos para cartões",
    "Como escolher entre laminação fosca, brilho UV localizado e mais.",
    "Guias Técnicos", "2025-02-05"⟩,
   ⟨"n3", "Estúdio 3D para protótipos de embalagens",
    "Veja os seus produtos em 3D antes de produzir.",
    "Lançamentos", "2025-03-18"⟩]

/-- Result shape of `/api/posts`. -/
structure PostResult where
  items : List PostDoc
deriving DecidableEq, Repr

/-- The empty filter `{}` passed by `list_posts`. -/
def emptyFilter : MongoFilter :=
  ⟨none, none, none, none, none⟩

/-- The `/api/posts` handler (main.py lines 167–195): query collection
`"blogpost"` with an empty filter; on store failure return the first
`limit` demo posts. No sorting or filtering stage exists. -/
def list_posts (store : String → MongoFilter → Nat → Except Unit (List PostDoc))
    (limit : Nat) : PostResult :=
  match store "blogpost" emptyFilter limit with
  | .ok ds => ⟨ds⟩
  | .error _ => ⟨demoPosts.take limit⟩

/-- The pricing keyword group (main.py line 210). -/
def pricingKeywords : List String :=
  ["orcamento", "preço", "cotacao", "cotação"]

/-- The scheduling keyword group (main.py line 219). -/
def schedulingKeywords : List String :=
  ["horario", "assistencia", "visita", "técnico", "tecnico"]

/-- Chat reply shape: a reply text plus optional suggestion list and
optional action tag (the three branches populate different fields). -/
structure ChatReply where
  reply : String
  suggestions : Option (List String)
  action : Option String
deriving DecidableEq, Repr

/-- The PricingInquiry reply (main.py lines 211–218). -/
def pricingReply : ChatReply :=
  ⟨"Para orçamento rápido, indique produto, dimensões, tiragem e prazo. Podemos gerar uma proposta base automaticamente.",
   some ["Cartões de visita 500 unid. 350g laminado fosco",
         "Flyers A5 1000 unid. 170g couché",
         "Lona 2x1m com ilhoses"],
   none⟩

/-- The ServiceSchedulingInquiry reply (main.py lines 220–223). -/
def scheduleReply : ChatReply :=
  ⟨"Podemos agendar assistência. Indique data/horário preferido e local. Enviaremos convite do Google Calendar.",
   none,
   some "schedule_suggest"⟩

/-- The Generic greeting reply (main.py lines 224–227). -/
def genericReply : ChatReply :=
  ⟨"Olá! Sou o assistente AMN. Posso ajudar com produtos, prazos, orçamentos e assistência técnica.",
   some ["Ver catálogo", "Pedir orçamento", "Falar com humano"],
   none⟩

/-- The `/api/chatbot` handler (main.py lines 206–227): normalize the
message by stripping and lowercasing, then first-match-wins over the
pricing and scheduling keyword groups via substring containment; the
optional `context` payload is ignored by the handler and omitted here. -/
def chatbot (message : String) : ChatReply :=
  let text := pyLower (pyStrip message)
  if pricingKeywords.any (fun w => strIn w text) then pricingReply
  else if schedulingKeywords.any (fun w => strIn w text) then scheduleReply
  else genericReply

/-- A store document with title `"x"` and empty description and category,
used to separate regex matching from substring containment. -/
def c5Doc : ProductDoc :=
  ⟨"x1", "x", "", none, "", true⟩

/-- A store document whose title `"Meu Flyer"` contains `"flyer"`
case-insensitively. -/
def c5WitnessDoc : ProductDoc :=
  ⟨"w", "Meu Flyer", "", none, "", true⟩

/-! ## Helper lemmas -/

theorem ascLe_trans : ∀ a b c : ProductDoc, ascLe a b → ascLe b c → ascLe a c := by
  intro a b c hab hbc
  simp only [ascLe, decide_eq_true_eq] at *
  exact le_trans hab hbc

theorem ascLe_total : ∀ a b : ProductDoc, ascLe a b || ascLe b a := by
  intro a b
  simp only [ascLe, Bool.or_eq_true, decide_eq_true_eq]
  exact le_total _ _

theorem descLe_trans : ∀ a b c : ProductDoc, descLe a b → descLe b c → descLe a c := by
  intro a b c hab hbc
  simp only [descLe, decide_eq_true_eq] at *
  exact le_trans hbc hab

theorem descLe_total : ∀ a b : ProductDoc, descLe a b || descLe b a := by
  intro a b
  simp only [descLe, Bool.or_eq_true, decide_eq_true_eq]
  exact le_total _ _

/-- A stable sort leaves the subsequence of records selected by any
predicate untouched whenever the comparison already holds between any two
selected records. -/
theorem filter_mergeSort_eq (le : ProductDoc → ProductDoc → Bool)
    (htrans : ∀ a b c : ProductDoc, le a b → le b c → le a c)
    (htotal : ∀ a b : ProductDoc, le a b || le b a)
    (pred : ProductDoc → Bool)
    (hpred : ∀ a b : ProductDoc, pred a = true → pred b = true → le a b = true)
    (docs : List ProductDoc) :
    (docs.mergeSort le).filter pred = docs.filter pred := by
  have hsub : List.Sublist (docs.filter pred) docs := List.filter_sublist docs
  have hpw : (docs.filter pred).Pairwise (fun a b => le a b) := by
    apply List.pairwise_of_forall_mem_list
    intro a ha b hb
    exact hpred a b (List.of_mem_filter ha) (List.of_mem_filter hb)
  have h1 : List.Sublist (docs.filter pred) (docs.mergeSort le) :=
    List.sublist_mergeSort htrans htotal hpw hsub
  have h3 : (docs.filter pred).filter pred = docs.filter pred :=
    List.filter_eq_self.mpr (fun a ha => List.of_mem_filter ha)
  have h2 : List.Sublist (docs.filter pred) ((docs.mergeSort le).filter pred) := by
    have hf := h1.filter pred
    rw [h3] at hf
    exact hf
  have hperm : List.Perm ((docs.mergeSort le).filter pred) (docs.filter pred) :=
    (List.mergeSort_perm docs le).filter pred
  exact (h2.eq_of_length hperm.length_eq.symm).symm

theorem mergeSort_pair (le : ProductDoc → ProductDoc → Bool) (a b : ProductDoc) :
    [a, b].mergeSort le = if le a b then [a, b] else [b, a] := by
  rw [List.mergeSort]
  simp [List.splitInTwo, List.splitAt, List.splitAt.go, List.merge]

theorem sortDocs_asc (docs : List ProductDoc) :
    sortDocs (some "price_asc") docs = docs.mergeSort ascLe := by
  simp [sortDocs]

theorem sortDocs_desc (docs : List ProductDoc) :
    sortDocs (some "price_desc") docs = docs.mergeSort descLe := by
  simp [sortDocs]

/-- On dot-free patterns, anchored regex matching is pointwise equality of
lowercased characters. -/
theorem rxHere_noDot : ∀ (pat hay : List Char), ('.' : Char) ∉ pat →
    rxHere true pat hay = hereEq (pat.map charLower) (hay.map charLower)
  | [], _, _ => by simp [rxHere, hereEq]
  | _ :: _, [], _ => by simp [rxHere, hereEq]
  | p :: ps, c :: cs, h => by
    have hp : p ≠ '.' := fun hq => h (by simp [hq])
    have hps : ('.' : Char) ∉ ps := fun hq => h (List.mem_cons_of_mem p hq)
    simp [rxHere, hereEq, tokMatch, hp, rxHere_noDot ps cs hps]

/-- On dot-free patterns, unanchored regex search is case-insensitive
substring search. -/
theorem rxSearch_noDot : ∀ (pat hay : List Char), ('.' : Char) ∉ pat →
    rxSearch true pat hay = subSearch (pat.map charLower) (hay.map charLower)
  | pat, [], h => by
    simp [rxSearch, subSearch, rxHere_noDot pat [] h]
  | pat, c :: cs, h => by
    simp [rxSearch, subSearch, rxHere_noDot pat (c :: cs) h, rxSearch_noDot pat cs h]

theorem strTruthy_of_ne (q : String) (hq : q ≠ "") : strTruthy (some q) = true := by
  cases q with
  | mk l =>
    cases l with
    | nil => exact absurd rfl hq
    | cons c cs => simp [strTruthy, List.isEmpty]

/-! ## Claim theorems -/

/-- Claim C1, counterexample: with a failing store, filters
`q="xyz-no-match"`, `category="Flyers"`, `sort="price_desc"` and
`limit=2`, the items returned are not the first two demo records in their
literal order — the sort stage reverses them — so the claim as stated
(demo catalog truncated to the first `limit` records, for any `sort`)
fails. -/
theorem c1_counterexample :
    (list_products (fun _ _ _ => Except.error ()) (some "xyz-no-match") (some "Flyers")
      none none none (some "price_desc") 2).items ≠ demoProducts.take 2 := by
  have h0 : (list_products (fun _ _ _ => Except.error ()) (some "xyz-no-match") (some "Flyers")
      none none none (some "price_desc") 2).items
      = sortDocs (some "price_desc") (demoProducts.take 2) := rfl
  rw [h0]
  rw [show demoProducts.take 2 = [demoProducts[0], demoProducts[1]] from rfl]
  rw [sortDocs_desc, mergeSort_pair]
  rw [if_neg (by decide)]
  decide

/-- Claim C1, amended: whenever the store call fails, `list_products`
propagates no error and returns the demo catalog truncated to the first
`limit` records with no filter applied to the demo data; the sorting stage
then applies as usual (so `price_desc` reverses the truncated demo list,
while every other sort value leaves it in literal order, `price_asc`
included, since the demo prices are already ascending). -/
theorem c1_fallback_unfiltered
    (store : String → MongoFilter → Nat → Except Unit (List ProductDoc))
    (q category : Option String) (min_price max_price : Option ℚ)
    (in_stock : Option Bool) (sort : Option String) (limit : Nat)
    (hfail : store "product" (buildFilter q category min_price max_price in_stock) limit
      = Except.error ()) :
    (list_products store q category min_price max_price in_stock sort limit).items
      = sortDocs sort (demoProducts.take limit) := by
  simp only [list_products, hfail]

/-- Witness for C1's amended theorem at a failing store with
`q="xyz-no-match"`, `category="Flyers"`, `sort="price_desc"`, `limit=2`. -/
theorem c1_fallback_unfiltered_witness :
    (list_products (fun _ _ _ => Except.error ()) (some "xyz-no-match") (some "Flyers")
      none none none (some "price_desc") 2).items
      = sortDocs (some "price_desc") (demoProducts.take 2) :=
  c1_fallback_unfiltered _ _ _ _ _ _ _ _ rfl

/-- Claim C3: the `count` field of every `list_products` result equals the
length of the `items` sequence actually returned, after truncation,
fallback and sorting. -/
theorem c3_count_eq_items_length
    (store : String → MongoFilter → Nat → Except Unit (List ProductDoc))
    (q category : Option String) (min_price max_price : Option ℚ)
    (in_stock : Option Bool) (sort : Option String) (limit : Nat) :
    (list_products store q category min_price max_price in_stock sort limit).count
      = (list_products store q category min_price max_price in_stock sort limit).items.length :=
  rfl

/-- Claim C4: whenever the normalized (stripped, lowercased) message
contains at least one pricing keyword, the chatbot returns the
PricingInquiry reply with its fixed 3-item suggestion list, regardless of
any scheduling keywords also present — the pricing group is checked first. -/
theorem c4_pricing_wins (m : String)
    (h : pricingKeywords.any (fun w => strIn w (pyLower (pyStrip m))) = true) :
    chatbot m = pricingReply := by
  simp only [chatbot, h, if_true]

/-- Witness for C4 at a message containing the pricing keyword `preço` and
the scheduling keywords `horario` and `visita`. -/
theorem c4_pricing_wins_witness :
    pricingKeywords.any
        (fun w => strIn w (pyLower (pyStrip "Qual o preço e horario da visita"))) = true
      ∧ schedulingKeywords.any
        (fun w => strIn w (pyLower (pyStrip "Qual o preço e horario da visita"))) = true
      ∧ chatbot "Qual o preço e horario da visita" = pricingReply :=
  ⟨by decide, by decide, c4_pricing_wins "Qual o preço e horario da visita" (by decide)⟩

/-- Claim C6, counterexample: the input `"Preciso de assistência técnica"`
does not yield the ServiceSchedulingInquiry reply — its accented
`assistência` and `técnica` contain none of the scheduling keywords
(`assistencia`, `técnico`, `tecnico`, `horario`, `visita`) as substrings. -/
theorem c6_counterexample :
    chatbot "Preciso de assistência técnica" ≠ scheduleReply := by
  decide

/-- Claim C6, amended: `classifyAndReply("Preciso de assistência técnica")`
falls through both keyword groups and yields the Generic greeting reply. -/
theorem c6_assistencia_generic :
    chatbot "Preciso de assistência técnica" = genericReply := by
  decide

/-- Claim C7: every message consisting only of whitespace (the empty
string included) maps to the Generic greeting reply with its fixed 3-item
suggestion list; the matcher is a total function with no failure mode. -/
theorem c7_whitespace_generic (m : String) (h : m.data.all pyIsSpace = true) :
    chatbot m = genericReply := by
  have h1 : m.data.dropWhile pyIsSpace = [] :=
    List.dropWhile_eq_nil_iff.mpr (fun x hx => List.all_eq_true.mp h x hx)
  have h2 : pyStrip m = "" := by
    simp [pyStrip, h1]
  simp only [chatbot, h2]
  decide

/-- Witness for C7 at the all-whitespace message `"   "`. -/
theorem c7_whitespace_generic_witness :
    ("   " : String).data.all pyIsSpace = true ∧ chatbot "   " = genericReply :=
  ⟨by decide, c7_whitespace_generic "   " (by decide)⟩

/-- Claim C8: for every limit in [1,50], when the store call fails,
`list_posts` returns exactly the first `limit` records of the fixed
3-record demo post list in literal order, with no sorting or filtering. -/
theorem c8_posts_fallback
    (store : String → MongoFilter → Nat → Except Unit (List PostDoc))
    (limit : Nat) (h1 : 1 ≤ limit) (h2 : limit ≤ 50)
    (hfail : store "blogpost" emptyFilter limit = Except.error ()) :
    (list_posts store limit).items = demoPosts.take limit := by
  simp only [list_posts, hfail]

/-- Witness for C8: `listPosts(limit=2)` under a failing store yields the
first 2 of the 3 literal demo posts. -/
theorem c8_posts_fallback_witness :
    (list_posts (fun _ _ _ => Except.error ()) 2).items = demoPosts.take 2 :=
  c8_posts_fallback _ 2 (by decide) (by decide) rfl

/-- Claim C10: an explicitly supplied empty-string `category` (and
likewise an empty-string `q`) is treated exactly as an absent parameter:
the whole `list_products` result, for any store, is identical to the call
with the parameter unset, so no clause restricts the store-backed result. -/
theorem c10_empty_string_like_absent
    (store : String → MongoFilter → Nat → Except Unit (List ProductDoc))
    (q : Option String) (min_price max_price : Option ℚ)
    (in_stock : Option Bool) (sort : Option String) (limit : Nat) :
    (list_products store q (some "") min_price max_price in_stock sort limit
        = list_products store q none min_price max_price in_stock sort limit)
      ∧ ∀ category : Option String,
        list_products store (some "") category min_price max_price in_stock sort limit
          = list_products store none category min_price max_price in_stock sort limit :=
  ⟨rfl, fun _ => rfl⟩

/-- Claim C2: for every record list, `sort=price_asc` yields a permutation
of the input in ascending order of price and `sort=price_desc` one in
descending order (a missing price reads as 0 via `priceKey`); every other
sort value, the default `relevance` and `newest` included, returns the
input order unchanged. -/
theorem c2_sort_modes (docs : List ProductDoc) :
    ((sortDocs (some "price_asc") docs).Pairwise (fun a b => priceKey a ≤ priceKey b)
      ∧ List.Perm (sortDocs (some "price_asc") docs) docs)
    ∧ ((sortDocs (some "price_desc") docs).Pairwise (fun a b => priceKey b ≤ priceKey a)
      ∧ List.Perm (sortDocs (some "price_desc") docs) docs)
    ∧ ∀ sort : Option String, sort ≠ some "price_asc" → sort ≠ some "price_desc" →
        sortDocs sort docs = docs := by
  refine ⟨⟨?_, ?_⟩, ⟨?_, ?_⟩, ?_⟩
  · rw [sortDocs_asc]
    exact (List.sorted_mergeSort ascLe_trans ascLe_total docs).imp
      (fun h => by simpa [ascLe] using h)
  · rw [sortDocs_asc]
    exact List.mergeSort_perm docs ascLe
  · rw [sortDocs_desc]
    exact (List.sorted_mergeSort descLe_trans descLe_total docs).imp
      (fun h => by simpa [descLe] using h)
  · rw [sortDocs_desc]
    exact List.mergeSort_perm docs descLe
  · intro s h1 h2
    simp [sortDocs, h1, h2]

/-- Witness for C2's order-preservation conjunct at `sort=relevance` on
the demo catalog. -/
theorem c2_sort_modes_witness :
    sortDocs (some "relevance") demoProducts = demoProducts :=
  (c2_sort_modes demoProducts).2.2 (some "relevance") (by decide) (by decide)

/-- Claim C9: the price sorts are stable — for every input list, every
sort mode and every price value, the subsequence of records whose key
(missing price read as 0) equals that value is returned in its original
relative order. -/
theorem c9_price_sort_stable (sort : Option String) (docs : List ProductDoc) (p : ℚ) :
    (sortDocs sort docs).filter (fun d => priceKey d = p)
      = docs.filter (fun d => priceKey d = p) := by
  by_cases h1 : sort = some "price_asc"
  · subst h1
    rw [sortDocs_asc]
    refine filter_mergeSort_eq ascLe ascLe_trans ascLe_total _ ?_ docs
    intro a b ha hb
    simp only [decide_eq_true_eq] at ha hb
    simp [ascLe, ha, hb]
  · by_cases h2 : sort = some "price_desc"
    · subst h2
      rw [sortDocs_desc]
      refine filter_mergeSort_eq descLe descLe_trans descLe_total _ ?_ docs
      intro a b ha hb
      simp only [decide_eq_true_eq] at ha hb
      simp [descLe, ha, hb]
    · simp [sortDocs, h1, h2]

/-- Claim C5, counterexample: with `q="."`, a document whose title is
`"x"` (description and category empty) satisfies the store filter built by
`list_products`, though none of its three text fields contains `"."` as a
substring — the filter passes `q` as an unescaped regex pattern, so the
claim read over every possible content of `q` fails. -/
theorem c5_counterexample :
    evalFilter (buildFilter (some ".") none none none none) c5Doc = true
      ∧ (containsCI c5Doc.title "." || containsCI c5Doc.description "."
          || containsCI c5Doc.category ".") = false := by
  decide

/-- Claim C5, amended: the filter built for a non-empty `q` requires a
case-insensitive `$regex` match of `q` against at least one of title,
description and category; whenever `q` contains no regex metacharacter
this is exactly case-insensitive substring containment across those three
fields. -/
theorem c5_q_literal_substring (q : String) (hq : q ≠ "")
    (hmeta : ∀ c ∈ q.data, c ∉ rxMeta)
    (category : Option String) (min_price max_price : Option ℚ)
    (in_stock : Option Bool) (d : ProductDoc)
    (h : evalFilter (buildFilter (some q) category min_price max_price in_stock) d = true) :
    (containsCI d.title q || containsCI d.description q || containsCI d.category q)
      = true := by
  have hdot : ('.' : Char) ∉ q.data := fun hmem => hmeta '.' hmem (by decide)
  have htr := strTruthy_of_ne q hq
  simp only [evalFilter, buildFilter, htr, if_true, Bool.and_eq_true] at h
  have hc := h.1.1.2
  rw [rxSearch_noDot _ _ hdot, rxSearch_noDot _ _ hdot, rxSearch_noDot _ _ hdot] at hc
  simpa [containsCI, pyLower] using hc

/-- Witness for C5's amended theorem: `q="flyer"` is metacharacter-free,
matches the document titled `"Meu Flyer"`, and that title contains it
case-insensitively. -/
theorem c5_q_literal_substring_witness :
    (("flyer" : String) ≠ "")
      ∧ (∀ c ∈ ("flyer" : String).data, c ∉ rxMeta)
      ∧ evalFilter (buildFilter (some "flyer") none none none none) c5WitnessDoc = true
      ∧ (containsCI c5WitnessDoc.title "flyer" || containsCI c5WitnessDoc.description "flyer"
          || containsCI c5WitnessDoc.category "flyer") = true :=
  ⟨by decide, by decide, by decide,
    c5_q_literal_substring "flyer" (by decide) (by decide) none none none none c5WitnessDoc
      (by decide)⟩

end AMN
